import Mathlib

/-!
Verification development for gmail_digest.py (v3.1).

The file embeds the deterministic core of the program — the category
classifier, the follow-up detector, the summary post-processing, the
per-run de-duplication loop, the digest assembler and the suggestion
builder — as executable Lean definitions, and proves the frozen claims
about them.

Conventions of the embedding:
- Python strings are modelled as Lean String values; all character-level
  processing happens on the underlying List Char.
- Python regular expressions from CATEGORY_RULES and NEED_ACTION_PATTERNS
  are transcribed into a small atom language (literal, single whitespace,
  whitespace-plus, whitespace-star, dot-plus, word boundary) with an
  alternation layer; a pattern compiled with re.I is stored lowercased and
  searched over the lowercased haystack, which is equivalent for the
  vocabulary the rules use.
- Python str.lower is modelled on ASCII and the Latin-1 letter range
  (enough for every character the rules mention); the Python word-character
  class (backslash w) is modelled as ASCII alphanumerics, underscore, and
  Latin-1 letters.
- Fallible code (the external text-generation call and the main run) is
  modelled with Except.
-/

-- ── Character-level helpers (Python str.lower, backslash-s, backslash-w) ──

/-- Model of the Python whitespace class: space, tab, newline, carriage
return, vertical tab, form feed. -/
def pyIsSpace (c : Char) : Bool :=
  c == ' ' || c == '\t' || c == '\n' || c == '\r' || c == '\x0b' || c == '\x0c'

/-- Model of the Python word-character class (backslash w): ASCII
alphanumerics, underscore, and the Latin-1 letters (which cover all accented
characters appearing in the rule vocabulary, such as the letter a-tilde). -/
def pyIsWord (c : Char) : Bool :=
  c.isAlphanum || c == '_' ||
    (decide (0xc0 ≤ c.toNat) && decide (c.toNat ≤ 0xff) &&
     !(c.toNat == 0xd7) && !(c.toNat == 0xf7))

/-- Model of Python str.lower on one character: ASCII A-Z and the Latin-1
uppercase letters map down by 32, everything else is unchanged. -/
def pyLowerChar (c : Char) : Char :=
  if 65 ≤ c.toNat ∧ c.toNat ≤ 90 then Char.ofNat (c.toNat + 32)
  else if 0xc0 ≤ c.toNat ∧ c.toNat ≤ 0xde ∧ c.toNat ≠ 0xd7 then Char.ofNat (c.toNat + 32)
  else c

/-- Model of Python str.lower on a character list. -/
def pyLower (s : List Char) : List Char := s.map pyLowerChar

/-- Model of Python str.strip: drop whitespace from both ends. -/
def pyStrip (s : List Char) : List Char :=
  ((s.dropWhile pyIsSpace).reverse.dropWhile pyIsSpace).reverse

/-- Model of re.sub with pattern backslash-W-plus and empty replacement,
applied after str.lower: lowercase, then remove every non-word character
(used by the summary de-duplication guard, gmail_digest.py lines 253-254). -/
def normWord (s : List Char) : List Char := (pyLower s).filter pyIsWord

-- ── A small regular-expression atom language ─────────────────────────────

/-- Atoms of the pattern language used to transcribe the regular
expressions of CATEGORY_RULES and NEED_ACTION_PATTERNS:
`lit w` is a literal character sequence, `wsOne` a single whitespace
character (backslash s), `wsPlus` one or more (backslash s +), `wsStar`
zero or more (backslash s *), `dotPlus` one or more non-newline characters
(dot-plus, with the default re semantics where dot excludes newline), and
`wb` a word boundary (backslash b). -/
inductive Atom where
  | lit (w : List Char)
  | wsOne
  | wsPlus
  | wsStar
  | dotPlus
  | wb
deriving DecidableEq

/-- Size of one atom, used as a termination measure for the matcher. -/
def atomSize : Atom → Nat
  | Atom.lit w => w.length + 1
  | Atom.wsOne => 1
  | Atom.wsPlus => 1
  | Atom.wsStar => 1
  | Atom.dotPlus => 1
  | Atom.wb => 1

/-- Total size of an atom sequence. -/
def atomsWeight : List Atom → Nat
  | [] => 0
  | a :: as => atomSize a + atomsWeight as

/-- Decide whether the character under an Option is a word character
(string edges count as non-word, as in the re module). -/
def isWordOpt : Option Char → Bool
  | none => false
  | some c => pyIsWord c

/-- Fuel-indexed matcher for an atom sequence starting exactly at the
current position. The parameter prev carries the character immediately
before the current position (none at the start of the haystack) so that
word boundaries can be decided. Every recursive call strictly decreases
the measure s.length + atomsWeight as, so a fuel of that measure plus one
(as supplied by matchAt below) never runs out; the fuel only serves to
keep the definition structurally recursive and hence kernel-executable. -/
def matchAtF : Nat → List Atom → Option Char → List Char → Bool
  | 0, _, _, _ => false
  | _ + 1, [], _, _ => true
  | f + 1, Atom.lit [] :: rest, p, s => matchAtF f rest p s
  | _ + 1, Atom.lit (_ :: _) :: _, _, [] => false
  | f + 1, Atom.lit (c :: cs) :: rest, _, d :: s =>
      c == d && matchAtF f (Atom.lit cs :: rest) (some d) s
  | _ + 1, Atom.wsOne :: _, _, [] => false
  | f + 1, Atom.wsOne :: rest, _, d :: s => pyIsSpace d && matchAtF f rest (some d) s
  | _ + 1, Atom.wsPlus :: _, _, [] => false
  | f + 1, Atom.wsPlus :: rest, _, d :: s =>
      pyIsSpace d && (matchAtF f rest (some d) s || matchAtF f (Atom.wsPlus :: rest) (some d) s)
  | f + 1, Atom.wsStar :: rest, p, [] => matchAtF f rest p []
  | f + 1, Atom.wsStar :: rest, p, d :: s =>
      matchAtF f rest p (d :: s) || (pyIsSpace d && matchAtF f (Atom.wsStar :: rest) (some d) s)
  | _ + 1, Atom.dotPlus :: _, _, [] => false
  | f + 1, Atom.dotPlus :: rest, _, d :: s =>
      (d != '\n') && (matchAtF f rest (some d) s || matchAtF f (Atom.dotPlus :: rest) (some d) s)
  | f + 1, Atom.wb :: rest, p, s => (isWordOpt p != isWordOpt s.head?) && matchAtF f rest p s

/-- Match an atom sequence starting exactly at the current position, with
sufficient fuel. -/
def matchAt (as : List Atom) (prev : Option Char) (s : List Char) : Bool :=
  matchAtF (s.length + atomsWeight as + 1) as prev s

/-- Search an atom sequence at every position of the haystack, threading
the previous character for word boundaries; this is the model of
Pattern.search for one alternation branch. -/
def searchFrom (as : List Atom) : Option Char → List Char → Bool
  | p, [] => matchAt as p []
  | p, c :: s => matchAt as p (c :: s) || searchFrom as (some c) s

/-- A pattern is an alternation of atom sequences. -/
abbrev Pat := List (List Atom)

/-- Model of Pattern.search on a lowercased haystack: some alternation
branch matches at some position. -/
def patSearch (p : Pat) (s : List Char) : Bool :=
  p.any fun alt => searchFrom alt none s

-- ── Pattern transcriptions (gmail_digest.py lines 57-83) ─────────────────

/-- One alternation branch consisting of a plain substring. -/
def litAlt (w : String) : List Atom := [Atom.lit w.data]

/-- One alternation branch consisting of a word-boundary-delimited word. -/
def wbAlt (w : String) : List Atom := [Atom.wb, Atom.lit w.data, Atom.wb]

/-- Alternation branches of the form head-dot-plus-tail, one per pair, used
for the follow-up patterns written as (a|b|c).+?(x|y|z). -/
def gapAlts (heads tails : List String) : Pat :=
  heads.flatMap fun a => tails.map fun b => [Atom.lit a.data, Atom.dotPlus, Atom.lit b.data]

/-- Family rule. Source regex (re.I): backslash-b (gilmara | lucas |
jo[a-or-a-tilde]o ?pedro | alvaro | sonia | m[a-tilde-or-a]e | pai)
backslash-b. The character class and the optional space are expanded into
explicit alternatives. -/
def familyPat : Pat :=
  [wbAlt ("gilmara"), wbAlt ("lucas"),
   wbAlt ("joao pedro"), wbAlt ("joaopedro"), wbAlt ("joão pedro"), wbAlt ("joãopedro"),
   wbAlt ("alvaro"), wbAlt ("sonia"), wbAlt ("mãe"), wbAlt ("mae"), wbAlt ("pai")]

/-- School rule. Source regex (re.I): highlands | naperville203 | talk203 |
kennedy backslash-s+ junior backslash-s+ high | elementary | teacher |
district backslash-s* 203 | infinitecampus | screening results |
language acquisition. -/
def schoolPat : Pat :=
  [litAlt ("highlands"), litAlt ("naperville203"), litAlt ("talk203"),
   [Atom.lit ("kennedy".data), Atom.wsPlus, Atom.lit ("junior".data), Atom.wsPlus,
    Atom.lit ("high".data)],
   litAlt ("elementary"), litAlt ("teacher"),
   [Atom.lit ("district".data), Atom.wsStar, Atom.lit ("203".data)],
   litAlt ("infinitecampus"), litAlt ("screening results"), litAlt ("language acquisition")]

/-- Activities rule. Source regex (re.I): soccer | backslash-b nsa
backslash-b | ice cream social | tour | camp | clinic. -/
def activitiesPat : Pat :=
  [litAlt ("soccer"), wbAlt ("nsa"), litAlt ("ice cream social"),
   litAlt ("tour"), litAlt ("camp"), litAlt ("clinic")]

/-- Market Update rule. Source regex (re.I): usiminas | analises@bb |
backslash-b bb-bi backslash-b | @valor.com | valor backslash-b |
market backslash-s+ update. -/
def marketPat : Pat :=
  [litAlt ("usiminas"), litAlt ("analises@bb"), wbAlt ("bb-bi"),
   litAlt ("@valor.com"), [Atom.lit ("valor".data), Atom.wb],
   [Atom.lit ("market".data), Atom.wsPlus, Atom.lit ("update".data)]]

/-- Bills and Finance rule. Source regex (re.I): invoice | bill | payment |
transfer | investment | statement | funded | usage limits | cartola |
boleto | fatura | openai. -/
def billsPat : Pat :=
  [litAlt ("invoice"), litAlt ("bill"), litAlt ("payment"), litAlt ("transfer"),
   litAlt ("investment"), litAlt ("statement"), litAlt ("funded"),
   litAlt ("usage limits"), litAlt ("cartola"), litAlt ("boleto"),
   litAlt ("fatura"), litAlt ("openai")]

/-- Housing rule. Source regex (re.I): rental | lease | property |
realt(y|or) | zillow | redfin | mls listing. -/
def housingPat : Pat :=
  [litAlt ("rental"), litAlt ("lease"), litAlt ("property"),
   litAlt ("realty"), litAlt ("realtor"),
   litAlt ("zillow"), litAlt ("redfin"), litAlt ("mls listing")]

/-- Purchases and Offers rule. Source regex (re.I): order | receipt |
reward | promo | offer | shopping | amazon. -/
def purchasesPat : Pat :=
  [litAlt ("order"), litAlt ("receipt"), litAlt ("reward"), litAlt ("promo"),
   litAlt ("offer"), litAlt ("shopping"), litAlt ("amazon")]

/-- Meetings and Invites rule. Source regex (re.I): invitation | event |
meet | reuni[a-tilde-or-a]o | backslash-dot ics | calendar. -/
def meetingsPat : Pat :=
  [litAlt ("invitation"), litAlt ("event"), litAlt ("meet"),
   litAlt ("reunião"), litAlt ("reuniao"), litAlt (".ics"), litAlt ("calendar")]

/-- Newsletters rule. Source regex (re.I): mckinsey backslash-dot com |
emails? backslash-dot hbr backslash-dot org | hbr backslash-dot org |
@interactive backslash-dot wsj backslash-dot com | newsletter |
weekly digest | digest update. -/
def newslettersPat : Pat :=
  [litAlt ("mckinsey.com"), litAlt ("emails.hbr.org"), litAlt ("email.hbr.org"),
   litAlt ("hbr.org"), litAlt ("@interactive.wsj.com"), litAlt ("newsletter"),
   litAlt ("weekly digest"), litAlt ("digest update")]

/-- Work rule. Source regex (re.I): @arcelormittal. -/
def workPat : Pat := [litAlt ("@arcelormittal")]

/-- Personal rule. The source compiles the empty pattern, which matches (a
zero-length match) at every position of every string. -/
def personalPat : Pat := [[]]

/-- Other rule. The source compiles dot-star with re.S, which likewise
matches (possibly a zero-length match) at every position of every string;
as a search predicate it is equivalent to the empty pattern. -/
def otherPat : Pat := [[]]

/-- The ordered category rule list (gmail_digest.py lines 58-74, first
match wins). -/
def CATEGORY_RULES : List (String × Pat) :=
  [("Family", familyPat), ("School", schoolPat), ("Activities", activitiesPat),
   ("Market Update", marketPat), ("Bills & Finance", billsPat),
   ("Housing", housingPat), ("Purchases & Offers", purchasesPat),
   ("Meetings & Invites", meetingsPat), ("Newsletters", newslettersPat),
   ("Work", workPat), ("Personal", personalPat), ("Other", otherPat)]

/-- Send reply pattern. Source regex (re.I): please backslash-s+ reply |
need backslash-s+ response | awaiting backslash-s+ your backslash-s+
reply. -/
def sendReplyPat : Pat :=
  [[Atom.lit ("please".data), Atom.wsPlus, Atom.lit ("reply".data)],
   [Atom.lit ("need".data), Atom.wsPlus, Atom.lit ("response".data)],
   [Atom.lit ("awaiting".data), Atom.wsPlus, Atom.lit ("your".data), Atom.wsPlus,
    Atom.lit ("reply".data)]]

/-- Provide document pattern. Source regex (re.I):
(send|provide|need) dot-plus-lazy (lease|photo|headshot|picture|bc|birth
certificate|invoice|attachment|document). Laziness does not change whether
a match exists, so the transcription uses the plain dot-plus atom. -/
def provideDocPat : Pat :=
  gapAlts (["send", "provide", "need"])
    (["lease", "photo", "headshot", "picture", "bc", "birth certificate",
      "invoice", "attachment", "document"])

/-- Schedule meeting pattern. Source regex (re.I):
(schedule|book|arrange) dot-plus-lazy (call|meeting|appointment). -/
def scheduleMeetingPat : Pat :=
  gapAlts (["schedule", "book", "arrange"]) (["call", "meeting", "appointment"])

/-- Confirm attendance pattern. Source regex (re.I):
(rsvp|confirm) dot-plus-lazy (attendance|presence). -/
def confirmAttendancePat : Pat :=
  gapAlts (["rsvp", "confirm"]) (["attendance", "presence"])

/-- The ordered follow-up action rule list (gmail_digest.py lines 77-83). -/
def NEED_ACTION_PATTERNS : List (String × Pat) :=
  [("Send reply", sendReplyPat), ("Provide document", provideDocPat),
   ("Schedule meeting", scheduleMeetingPat), ("Confirm attendance", confirmAttendancePat)]

-- ── Data model and the classifier / follow-up detector ───────────────────

/-- Canonical per-message record, the output of meta_from_full
(gmail_digest.py lines 193-203) with the summary field filled in later by
the main loop (line 378, empty before that). -/
structure Meta where
  id : String
  subject : String
  «from» : String
  date : String
  important : Bool
  snippet : String
  attachments : List String
  summary : String
deriving DecidableEq

/-- The haystack categorise builds: subject, space, sender, lowercased
(gmail_digest.py line 261). -/
def catHay (subject sender : String) : List Char :=
  pyLower ((subject ++ " " ++ sender).data)

/-- First-match-wins evaluation of an ordered rule list, returning the
fallback label when nothing matches (the loop of gmail_digest.py lines
262-265). -/
def firstMatch : List (String × Pat) → List Char → String
  | [], _ => "Other"
  | r :: rest, hay => if patSearch r.2 hay then r.1 else firstMatch rest hay

/-- Model of categorise (gmail_digest.py lines 260-265). -/
def categorise (m : Meta) : String :=
  firstMatch CATEGORY_RULES (catHay m.subject m.«from»)

/-- The closed category label set: the labels of CATEGORY_RULES. -/
def categoryLabels : List String := CATEGORY_RULES.map Prod.fst

/-- The haystack detect_followup builds: subject, space, summary, space,
snippet (gmail_digest.py line 268); stored lowercased because every action
pattern carries re.I. -/
def fuHay (m : Meta) (summary : String) : List Char :=
  pyLower ((m.subject ++ " " ++ summary ++ " " ++ m.snippet).data)

/-- Model of the anchored reply-marker search re.search of caret-re-colon
backslash-s with re.I on the raw subject (gmail_digest.py line 272): the
lowercased subject must start with the three characters r, e, colon
followed by one whitespace character. -/
def isReplyMarker (subject : String) : Bool :=
  matchAt [Atom.lit ("re:".data), Atom.wsOne] none (pyLower subject.data)

/-- Model of detect_followup (gmail_digest.py lines 267-274). -/
def detect_followup (m : Meta) (summary : String) : Bool × Option String :=
  match NEED_ACTION_PATTERNS.find? (fun r => patSearch r.2 (fuHay m summary)) with
  | some r => (true, some r.1)
  | none =>
      if isReplyMarker m.subject then (true, some "Send reply") else (false, none)

-- ── Summariser (gmail_digest.py lines 234-257) ───────────────────────────

/-- Fixed sentinel returned for messages with no body text and used as the
final fallback of the truncation expression. -/
def unavailable : List Char := "Summary not available.".data

/-- Placeholder appended by the truncation, a space followed by a
horizontal ellipsis character. -/
def shortenPlaceholder : List Char := " …".data

/-- Split a character list into maximal whitespace-free words, as Python
str.split with no arguments does. -/
def wordsOf : List Char → List (List Char)
  | [] => []
  | c :: s =>
      if pyIsSpace c then wordsOf s
      else
        match wordsOf s with
        | [] => [[c]]
        | w :: ws =>
            match s with
            | [] => [[c]]
            | d :: _ => if pyIsSpace d then [c] :: w :: ws else (c :: w) :: ws

/-- Greedy step of the truncation: keep adding whole words while the
joined text plus the placeholder still fits the width, then append the
placeholder. -/
def shortenFit (width : Nat) : List (List Char) → List (List Char) → List Char
  | acc, [] => List.intercalate [' '] acc ++ shortenPlaceholder
  | acc, w :: ws =>
      if (List.intercalate [' '] (acc ++ [w])).length + shortenPlaceholder.length ≤ width
      then shortenFit width (acc ++ [w]) ws
      else List.intercalate [' '] acc ++ shortenPlaceholder

/-- Model of textwrap.shorten with the placeholder of the source: collapse
whitespace by splitting into words and rejoining with single spaces;
return the collapsed text unchanged when it fits the width, otherwise the
longest whole-word prefix followed by the placeholder. The library corner
case of breaking a single overlong word is not reached by any input used
here. -/
def pyShorten (width : Nat) (s : List Char) : List Char :=
  let ws := wordsOf s
  let joined := List.intercalate [' '] ws
  if joined.length ≤ width then joined else shortenFit width [] ws

/-- The fallback expression of gmail_digest.py line 256: the 180-character
truncation of the body text, or the unavailable sentinel when that
truncation is empty (the Python or of a possibly falsy string). -/
def bodyFallback (text : List Char) : List Char :=
  let t := pyShorten 180 text
  if t.isEmpty then unavailable else t

/-- Post-processing of the generated summary (gmail_digest.py lines 248
and 253-257): strip the generated content, normalise subject and summary
by lowercasing and removing non-word characters, and when the normalised
subject is non-empty and its first 30 characters are a prefix of the
normalised summary, replace the summary by the truncated body text. -/
def summarisePost (subject text g : List Char) : List Char :=
  let summary := pyStrip g
  let subj_norm := normWord subject
  let summ_norm := normWord summary
  if !subj_norm.isEmpty && List.isPrefixOf (subj_norm.take 30) summ_norm
  then bodyFallback text
  else summary

/-- Model of summarise (gmail_digest.py lines 234-257). The external
chat-completion call is abstracted as the capability gen, applied to the
1200-character truncation of the body text that the source puts in the
user message; an exception from the call is re-raised (lines 249-251),
modelled as the error propagating. -/
def summariseE (gen : List Char → Except String (List Char))
    (subject text : List Char) : Except String (List Char) :=
  if text.isEmpty then Except.ok unavailable
  else
    match gen (pyShorten 1200 text) with
    | Except.error e => Except.error e
    | Except.ok g => Except.ok (summarisePost subject text g)

-- ── The per-run de-duplication loop (gmail_digest.py lines 367-379) ──────

/-- Subject prefix of the digest the program itself sends (line 372 and
line 417). -/
def selfSubject : List Char := "📬 Gmail Daily Digest".data

/-- The filtering logic of the main fetch loop, generic in the record type
so it applies both to bare message records and to records paired with
their body text: a message is skipped when its subject starts with the
self-digest prefix, or when its subject was already seen; otherwise it is
kept and its subject is added to the seen set (modelled as a list). -/
def dedupLoop {α : Type} (subjOf : α → String) : List α → List String → List α
  | [], _ => []
  | m :: rest, seen =>
      if selfSubject.isPrefixOf (subjOf m).data then dedupLoop subjOf rest seen
      else if subjOf m ∈ seen then dedupLoop subjOf rest seen
      else m :: dedupLoop subjOf rest (subjOf m :: seen)

/-- The messages of one run that survive the de-duplication filter, in
fetch order (gmail_digest.py lines 367-379, with the summarisation step
factored out). -/
def filterMetas (ms : List Meta) : List Meta := dedupLoop (fun m => m.subject) ms []

-- ── Grouping (gmail_digest.py lines 381-383) ─────────────────────────────

/-- Append a message to the group of its category, creating the group at
the end when absent; this models dict.setdefault followed by append on an
insertion-ordered Python dict. -/
def insertGroup : List (String × List Meta) → String → Meta → List (String × List Meta)
  | [], c, m => [(c, [m])]
  | (cat, items) :: rest, c, m =>
      if cat = c then (cat, items ++ [m]) :: rest
      else (cat, items) :: insertGroup rest c m

/-- Model of the grouping loop: fold every classified message into the
insertion-ordered group structure. -/
def buildGroups (ms : List Meta) : List (String × List Meta) :=
  ms.foldl (fun g m => insertGroup g (categorise m) m) []

/-- Model of dict.get on the group structure, returning the empty list
both for an absent key and for an empty group (both are falsy in the
source's truthiness tests). -/
def groupsGet (groups : List (String × List Meta)) (cat : String) : List Meta :=
  match groups.find? (fun g => g.1 == cat) with
  | some g => g.2
  | none => []

-- ── Digest assembler (gmail_digest.py lines 279-304) ─────────────────────

/-- Follow-up entry accumulated by build_digest (line 301). -/
structure FollowUp where
  ref : String
  action : String
  subject : String
deriving DecidableEq

/-- The formatted reference tag of line 287: an opening bracket, the
reference number zero-padded to two digits, and a closing bracket. -/
def refTag (n : Nat) : String :=
  "[" ++ (if n < 10 then "0" ++ toString n else toString n) ++ "]"

/-- Accumulator of one group's rendering: the cards of the group (kept
structured as reference number and message, which carries everything the
rendered card shows), the attachment entries, the follow-up entries, and
the next reference number. -/
structure CardAcc where
  cards : List (Nat × Meta)
  attachments : List (String × String × String)
  followups : List FollowUp
  nextRef : Nat
deriving DecidableEq

/-- The inner loop of build_digest over the members of one group (lines
286-302): each message receives the current reference number, contributes
one attachment entry per attachment filename (tagged with its reference
tag and sender, line 298), contributes a follow-up entry when
detect_followup reports an action (lines 299-301), and the reference
number advances by one. -/
def digestItems (k : Nat) : List Meta → CardAcc
  | [] => ⟨[], [], [], k⟩
  | m :: rest =>
      let acc := digestItems (k + 1) rest
      ⟨(k, m) :: acc.cards,
       (m.attachments.map fun f => (f, refTag k, m.«from»)) ++ acc.attachments,
       (match detect_followup m m.summary with
        | (true, some a) => ⟨refTag k, a, m.subject⟩ :: acc.followups
        | _ => acc.followups),
       acc.nextRef⟩

/-- Whole-digest accumulator: structured sections (category heading plus
cards), attachment entries, follow-up entries, next reference number. -/
structure DigestAcc where
  sections : List (String × List (Nat × Meta))
  attachments : List (String × String × String)
  followups : List FollowUp
  nextRef : Nat
deriving DecidableEq

/-- The outer loop of build_digest over the groups (lines 282-303): empty
groups are skipped without consuming reference numbers, non-empty groups
contribute one section each, and the reference counter threads through in
iteration order. -/
def digestGroups (k : Nat) : List (String × List Meta) → DigestAcc
  | [] => ⟨[], [], [], k⟩
  | (cat, items) :: rest =>
      if items.isEmpty then digestGroups k rest
      else
        let g := digestItems k items
        let r := digestGroups g.nextRef rest
        ⟨(cat, g.cards) :: r.sections, g.attachments ++ r.attachments,
         g.followups ++ r.followups, r.nextRef⟩

/-- Model of build_digest (gmail_digest.py lines 279-304): sections,
attachment entries and follow-up entries, with the reference counter
starting at 1. The HTML surface rendering of each card (CSS, date
formatting, escaping) is presentation of the returned structure and is
not modelled. -/
def build_digest (groups : List (String × List Meta)) :
    List (String × List (Nat × Meta)) × List (String × String × String) × List FollowUp :=
  let d := digestGroups 1 groups
  (d.sections, d.attachments, d.followups)

-- ── Suggestions (gmail_digest.py lines 306-318) ──────────────────────────

/-- Calendar suggestion text (line 309). -/
def calendarSugg : String := "Mark upcoming sports / activity dates on the calendar."

/-- Unsubscribe suggestion text (line 311). -/
def unsubSugg : String := "Consider unsubscribing from promotional newsletters."

/-- Attachment-filing suggestion text (line 313). -/
def fileSugg : String := "Download and file important attachments."

/-- Time-blocking suggestion text (line 315). -/
def timeblockSugg : String := "Schedule time today to clear pending follow-ups."

/-- Positive fallback suggestion text (line 317). -/
def allGoodSugg : String := "Inbox looks good today — no suggestions!"

/-- Model of build_suggestions (gmail_digest.py lines 306-318): four
independent accumulating rules in declaration order, then the fallback
when the accumulated list is empty. -/
def build_suggestions (groups : List (String × List Meta))
    (followups : List FollowUp) (attach_n : Nat) : List String :=
  let s : List String := []
  let s := if groupsGet groups ("Activities") ≠ [] then s ++ [calendarSugg] else s
  let s := if groupsGet groups ("Purchases & Offers") ≠ [] then s ++ [unsubSugg] else s
  let s := if attach_n ≠ 0 then s ++ [fileSugg] else s
  let s := if followups ≠ [] then s ++ [timeblockSugg] else s
  if s = [] then [allGoodSugg] else s

-- ── Main run (gmail_digest.py lines 360-424 and 426-432) ─────────────────

/-- A fetched message before summarisation: the normalised record together
with the body text that extract_plain_text produced for it (possibly
empty). -/
structure RawMsg where
  meta : Meta
  bodyText : String
deriving DecidableEq

/-- The body text the loop feeds to the summariser (line 377): the
extracted text, else the snippet, else the subject (the Python or chain
over possibly empty strings). -/
def computedBody (r : RawMsg) : List Char :=
  if r.bodyText ≠ "" then r.bodyText.data
  else if r.meta.snippet ≠ "" then r.meta.snippet.data
  else r.meta.subject.data

/-- The main fetch loop (lines 367-379) with the summariser call made
explicit: skipped messages are dropped as in dedupLoop, surviving
messages are summarised, and a summarisation failure aborts the whole
loop (the exception propagates). -/
def mainLoop (gen : List Char → Except String (List Char)) :
    List RawMsg → List String → Except String (List Meta)
  | [], _ => Except.ok []
  | r :: rest, seen =>
      if selfSubject.isPrefixOf r.meta.subject.data then mainLoop gen rest seen
      else if r.meta.subject ∈ seen then mainLoop gen rest seen
      else
        match summariseE gen r.meta.subject.data (computedBody r) with
        | Except.error e => Except.error e
        | Except.ok s =>
            match mainLoop gen rest (r.meta.subject :: seen) with
            | Except.error e => Except.error e
            | Except.ok ms => Except.ok ({ r.meta with summary := String.mk s } :: ms)

/-- The content of the one digest email a successful run sends, kept
structured: sections, attachment entries, follow-up entries, the overview
counters, and the suggestions (lines 385-414). -/
structure DigestRun where
  sections : List (String × List (Nat × Meta))
  attachments : List (String × String × String)
  followups : List FollowUp
  total : Nat
  importantCount : Nat
  suggestions : List String
deriving DecidableEq

/-- Model of main (lines 360-424) downstream of fetching: run the loop,
group, assemble the digest and the suggestions. An error anywhere
propagates and nothing is produced. -/
def mainE (gen : List Char → Except String (List Char)) (msgs : List RawMsg) :
    Except String DigestRun :=
  match mainLoop gen msgs [] with
  | Except.error e => Except.error e
  | Except.ok metas =>
      let groups := buildGroups metas
      let d := build_digest groups
      Except.ok ⟨d.1, d.2.1, d.2.2, metas.length,
        (metas.filter fun m => m.important).length,
        build_suggestions groups d.2.2 d.2.1.length⟩

/-- Model of the top-level guard (lines 426-432): a successful run yields
the sent digest and the success line, a failed run yields no email and the
fatal-error diagnostic line. The HttpError branch concerns the external
mailbox transport and is outside the modelled core. -/
def runTop (gen : List Char → Except String (List Char)) (msgs : List RawMsg) :
    Option DigestRun × String :=
  match mainE gen msgs with
  | Except.ok d => (some d, "✅ Improved digest emailed & logged to Notion!")
  | Except.error e => (none, "❌ Fatal error: " ++ e)

/-- Decide whether an Except value is an error. -/
def isErr {ε β : Type} : Except ε β → Bool
  | Except.error _ => true
  | Except.ok _ => false

-- ── Helper lemmas on the matcher and the rule evaluator ──────────────────

/-- The empty atom sequence matches at any position. -/
theorem matchAt_nilAtoms (p : Option Char) (s : List Char) : matchAt [] p s = true := rfl

/-- The empty atom sequence is found in every haystack. -/
theorem searchFrom_nilAtoms (p : Option Char) (s : List Char) : searchFrom [] p s = true := by
  cases s with
  | nil => simp [searchFrom, matchAt_nilAtoms]
  | cons c s => simp [searchFrom, matchAt_nilAtoms]

/-- The Personal pattern (the compiled empty regex) matches every
haystack. -/
theorem personal_always (s : List Char) : patSearch personalPat s = true := by
  simp [patSearch, personalPat, searchFrom_nilAtoms]

/-- First-match-wins decomposition: whenever some rule of the list
matches the haystack, the list splits as pre ++ q :: post where q is the
returned rule, q matches, and every rule before q fails. -/
theorem firstMatch_spec (rules : List (String × Pat)) (hay : List Char)
    (hex : ∃ q ∈ rules, patSearch q.2 hay = true) :
    ∃ pre q post, rules = pre ++ q :: post ∧ patSearch q.2 hay = true ∧
      firstMatch rules hay = q.1 ∧ ∀ p ∈ pre, patSearch p.2 hay = false := by
  induction rules with
  | nil => simp at hex
  | cons r rest ih =>
      cases hr : patSearch r.2 hay with
      | true =>
          exact ⟨[], r, rest, rfl, hr, by simp [firstMatch, hr], by simp⟩
      | false =>
          have hex2 : ∃ q ∈ rest, patSearch q.2 hay = true := by
            rcases hex with ⟨q, hq, hqs⟩
            rcases List.mem_cons.mp hq with h | h
            · rw [h] at hqs; rw [hqs] at hr; cases hr
            · exact ⟨q, h, hqs⟩
          rcases ih hex2 with ⟨pre, q, post, hdec, hqs, hfm, hpre⟩
          refine ⟨r :: pre, q, post, by rw [hdec]; simp, hqs, ?_, ?_⟩
          · simp [firstMatch, hr, hfm]
          · intro p hp
            rcases List.mem_cons.mp hp with h | h
            · rw [h]; exact hr
            · exact hpre p h

/-- When a rule list decomposes as pre ++ q :: post with q matching, the
first-match evaluation returns one of the labels of pre or the label of q
(the rules after q can never be reached). -/
theorem firstMatch_mem_upto (pre : List (String × Pat)) (q : String × Pat)
    (post : List (String × Pat)) (hay : List Char) (hq : patSearch q.2 hay = true) :
    firstMatch (pre ++ q :: post) hay ∈ pre.map Prod.fst ++ [q.1] := by
  induction pre with
  | nil => simp [firstMatch, hq]
  | cons r rest ih =>
      by_cases hr : patSearch r.2 hay = true
      · simp [firstMatch, hr]
      · have hr2 : patSearch r.2 hay = false := by
          cases h : patSearch r.2 hay
          · rfl
          · exact absurd h hr
        simp only [List.cons_append, firstMatch, hr2, Bool.false_eq_true, if_false,
          List.map_cons]
        exact List.mem_cons_of_mem _ ih

-- ── Claim C2: totality of the classifier ─────────────────────────────────

/-- C2. The Classifier is total: for every possible (subject, sender)
pair — carried by an arbitrary message record — categorise returns exactly
one label, that label belongs to the fixed closed category set, and the
returned rule is reached first-match-wins: the rule list decomposes around
the firing rule with every earlier rule failing (instantiating the firing
rule to the final catch-all gives exactly the statement that the catch-all
fires only when no earlier rule matches). -/
theorem claim_C2_classifier_total (m : Meta) :
    categorise m ∈ categoryLabels ∧
    ∃ pre q post, CATEGORY_RULES = pre ++ q :: post ∧
      patSearch q.2 (catHay m.subject m.«from») = true ∧
      categorise m = q.1 ∧
      ∀ p ∈ pre, patSearch p.2 (catHay m.subject m.«from») = false := by
  have hex : ∃ q ∈ CATEGORY_RULES, patSearch q.2 (catHay m.subject m.«from») = true :=
    ⟨("Personal", personalPat), by simp [CATEGORY_RULES], personal_always _⟩
  rcases firstMatch_spec CATEGORY_RULES _ hex with ⟨pre, q, post, hdec, hqs, hfm, hpre⟩
  have hmem : q ∈ CATEGORY_RULES := by
    rw [hdec]; exact List.mem_append_right _ (List.mem_cons_self _ _)
  constructor
  · have hcat : categorise m = q.1 := hfm
    rw [hcat]
    exact List.mem_map_of_mem Prod.fst hmem
  · exact ⟨pre, q, post, hdec, hqs, hfm, hpre⟩

/-- Concrete instance of C2 at one message record. -/
def mC2 : Meta := ⟨"c2", "Status update", "someone@example.com", "", false, "", [], ""⟩

/-- Witness for C2: the classifier output on a concrete message is in the
fixed label set. -/
theorem claim_C2_witness : categorise mC2 ∈ categoryLabels :=
  (claim_C2_classifier_total mC2).1

-- ── Claim C3: rule order encodes precedence ──────────────────────────────

/-- C3. Rule order encodes precedence: any message whose lowercased
subject-plus-sender haystack matches both the Family pattern and the
Newsletters pattern is classified Family, because the Family rule comes
first. -/
theorem claim_C3_family_precedence (m : Meta)
    (hf : patSearch familyPat (catHay m.subject m.«from») = true)
    (_hn : patSearch newslettersPat (catHay m.subject m.«from») = true) :
    categorise m = "Family" := by
  show firstMatch CATEGORY_RULES (catHay m.subject m.«from») = "Family"
  simp [CATEGORY_RULES, firstMatch, hf]

/-- Concrete message matching both the Family and the Newsletters
patterns. -/
def mC3 : Meta := ⟨"c3", "Lucas", "news@hbr.org", "", false, "", [], ""⟩

/-- Witness for C3: a concrete message that matches both patterns and is
classified Family. -/
theorem claim_C3_witness :
    patSearch familyPat (catHay mC3.subject mC3.«from») = true ∧
    patSearch newslettersPat (catHay mC3.subject mC3.«from») = true ∧
    categorise mC3 = "Family" :=
  ⟨by decide, by decide, claim_C3_family_precedence mC3 (by decide) (by decide)⟩

-- ── Claim C10: the effective catch-all is Personal ───────────────────────

/-- C10. The empty Personal pattern matches every haystack, so categorise
never returns the label Other: the final Other rule and the post-loop
Other fallback are unreachable. -/
theorem claim_C10_personal_catchall :
    (∀ s : List Char, patSearch personalPat s = true) ∧
    ∀ m : Meta, categorise m ≠ "Other" := by
  refine ⟨personal_always, ?_⟩
  intro m
  show firstMatch CATEGORY_RULES (catHay m.subject m.«from») ≠ "Other"
  have hdec : CATEGORY_RULES =
      [("Family", familyPat), ("School", schoolPat), ("Activities", activitiesPat),
       ("Market Update", marketPat), ("Bills & Finance", billsPat),
       ("Housing", housingPat), ("Purchases & Offers", purchasesPat),
       ("Meetings & Invites", meetingsPat), ("Newsletters", newslettersPat),
       ("Work", workPat)] ++ ("Personal", personalPat) :: [("Other", otherPat)] := rfl
  rw [hdec]
  have h := firstMatch_mem_upto
    [("Family", familyPat), ("School", schoolPat), ("Activities", activitiesPat),
     ("Market Update", marketPat), ("Bills & Finance", billsPat),
     ("Housing", housingPat), ("Purchases & Offers", purchasesPat),
     ("Meetings & Invites", meetingsPat), ("Newsletters", newslettersPat),
     ("Work", workPat)]
    ("Personal", personalPat) [("Other", otherPat)] (catHay m.subject m.«from»)
    (personal_always _)
  intro heq
  rw [heq] at h
  exact absurd h (by decide)

-- ── Claim C5: follow-up default for reply subjects ───────────────────────

/-- Reply marker as the claim words it: the subject begins with the three
characters r, e, colon case-insensitively, with any following whitespace
optional. Stated for comparison with the marker the code implements,
which demands a whitespace character after the colon. -/
def claimReplyMarker (subject : String) : Bool :=
  List.isPrefixOf ("re:".data) (pyLower subject.data)

/-- Concrete message refuting C5 as stated: the subject begins with the
reply marker but has no whitespace after the colon. -/
def mC5 : Meta := ⟨"c5", "Re:Budget question", "", "", false, "", [], ""⟩

/-- Counterexample to C5 as stated. On the subject of mC5 no follow-up
action pattern matches the haystack and the subject begins with the
case-insensitive reply marker, yet detect_followup reports no follow-up
instead of the Send reply action, because the compiled marker pattern
requires a whitespace character right after the colon. -/
theorem claim_C5_counterexample :
    (∀ r ∈ NEED_ACTION_PATTERNS, patSearch r.2 (fuHay mC5 "") = false) ∧
    claimReplyMarker mC5.subject = true ∧
    detect_followup mC5 "" = (false, none) := by
  refine ⟨by decide, by decide, by decide⟩

/-- C5 as amended: for every message on which no follow-up action pattern
matches the haystack of subject, summary and snippet, the detector
returns the Send reply action exactly when the subject begins with the
case-insensitive marker r, e, colon followed by one whitespace character,
and otherwise reports no follow-up. -/
theorem claim_C5_reply_default (m : Meta) (summary : String)
    (h : ∀ r ∈ NEED_ACTION_PATTERNS, patSearch r.2 (fuHay m summary) = false) :
    detect_followup m summary =
      if isReplyMarker m.subject then (true, some "Send reply") else (false, none) := by
  have h0 : NEED_ACTION_PATTERNS.find? (fun r => patSearch r.2 (fuHay m summary)) = none := by
    apply List.find?_eq_none.mpr
    intro x hx
    simp [h x hx]
  simp [detect_followup, h0]

/-- Concrete message for the C5 witness: a reply subject with the
whitespace the code demands. -/
def mC5w : Meta := ⟨"c5w", "Re: Budget question", "", "", false, "", [], ""⟩

/-- Witness for the amended C5 at a concrete reply subject. -/
theorem claim_C5_witness : detect_followup mC5w "" = (true, some "Send reply") := by
  have h := claim_C5_reply_default mC5w "" (by decide)
  rw [h]
  decide

-- ── Claim C7: summary de-duplication guard ───────────────────────────────

/-- Subject for the C7 counterexample: no word characters at all, so its
normalisation is empty. -/
def c7subject : List Char := "!!!".data

/-- Body text for the C7 counterexample. -/
def c7text : List Char := "Team lunch moved to Friday at noon.".data

/-- Generated summary for the C7 counterexample, unrelated to the
subject. -/
def c7gen : List Char := "Completely unrelated sentence.".data

/-- Counterexample to C7 as stated. With a subject whose normalisation is
empty, the normalised summary vacuously starts with the first 30
characters of the normalised subject (the empty string), yet the code
keeps the generated summary instead of substituting the truncated body:
the guard additionally requires the normalised subject to be non-empty. -/
theorem claim_C7_counterexample :
    normWord c7subject = [] ∧
    List.isPrefixOf ((normWord c7subject).take 30) (normWord (pyStrip c7gen)) = true ∧
    summarisePost c7subject c7text c7gen = pyStrip c7gen ∧
    pyStrip c7gen ≠ bodyFallback c7text := by
  refine ⟨by decide, by decide, by decide, by decide⟩

/-- C7 as amended: for every subject with a non-empty normalisation,
non-empty body text, and generated summary whose normalisation starts
with the first 30 characters of the normalised subject, the summariser
discards the generated summary and returns the 180-character-bounded
truncation of the original body text (with the unavailable sentinel
substituted when that truncation is empty, per the or of line 256). -/
theorem claim_C7_dedup_guard (subject text g : List Char)
    (htext : text.isEmpty = false)
    (h1 : (normWord subject).isEmpty = false)
    (h2 : List.isPrefixOf ((normWord subject).take 30) (normWord (pyStrip g)) = true) :
    summariseE (fun _ => Except.ok g) subject text = Except.ok (bodyFallback text) := by
  simp [summariseE, htext, summarisePost, h1, h2]

/-- Concrete subject for the C7 witness, from the spec scenario. -/
def c7wSubject : List Char := "Quarterly Report".data

/-- Concrete body text for the C7 witness. -/
def c7wText : List Char := "The quarterly report is attached for your review.".data

/-- Concrete generated summary echoing the subject, from the spec
scenario. -/
def c7wGen : List Char := "Quarterly Report is attached for your review.".data

/-- Witness for the amended C7 at the spec's own scenario: the echoing
summary is replaced by the truncated body text. -/
theorem claim_C7_witness :
    summariseE (fun _ => Except.ok c7wGen) c7wSubject c7wText = Except.ok (bodyFallback c7wText) :=
  claim_C7_dedup_guard c7wSubject c7wText c7wGen (by decide) (by decide) (by decide)

-- ── Claim C8: suggestion derivation ──────────────────────────────────────

/-- C8. Suggestion derivation accumulates matching suggestions
independently, in rule-declaration order: the calendar suggestion appears
exactly when an Activities group is present and non-empty, the
unsubscribe suggestion exactly for Purchases and Offers, the filing
suggestion exactly when the attachment count is non-zero, the
time-blocking suggestion exactly when follow-ups exist, and the single
positive fallback appears exactly when none of the four rules fires. -/
theorem claim_C8_suggestions (groups : List (String × List Meta))
    (followups : List FollowUp) (attach_n : Nat) :
    build_suggestions groups followups attach_n =
      (if groupsGet groups ("Activities") ≠ [] then [calendarSugg] else []) ++
      (if groupsGet groups ("Purchases & Offers") ≠ [] then [unsubSugg] else []) ++
      (if attach_n ≠ 0 then [fileSugg] else []) ++
      (if followups ≠ [] then [timeblockSugg] else []) ++
      (if groupsGet groups ("Activities") = [] ∧ groupsGet groups ("Purchases & Offers") = [] ∧
          attach_n = 0 ∧ followups = []
       then [allGoodSugg] else []) := by
  by_cases h1 : groupsGet groups ("Activities") = [] <;>
  by_cases h2 : groupsGet groups ("Purchases & Offers") = [] <;>
  by_cases h3 : attach_n = 0 <;>
  by_cases h4 : followups = [] <;>
  simp [build_suggestions, h1, h2, h3, h4]

/-- Concrete message for the C8 witness group. -/
def mC8 : Meta := ⟨"c8", "Soccer tryouts Saturday", "coach@club.org", "", false, "", [], ""⟩

/-- Concrete group structure for the C8 witness. -/
def gsC8 : List (String × List Meta) := [("Activities", [mC8])]

/-- Witness for C8: with one Activities group and one attachment, exactly
the calendar and filing suggestions appear, in declaration order. -/
theorem claim_C8_witness : build_suggestions gsC8 [] 1 = [calendarSugg, fileSugg] := by
  have h := claim_C8_suggestions gsC8 [] 1
  rw [h]
  decide

-- ── Claim C1: per-subject de-duplication and self-digest exclusion ───────

/-- Every survivor of the de-duplication loop has a subject outside the
seen set, is not a self-digest, and is the first element of the input
carrying its subject. -/
theorem dedup_mem {α : Type} (subjOf : α → String) (l : List α) :
    ∀ (seen : List String) (m : α), m ∈ dedupLoop subjOf l seen →
      subjOf m ∉ seen ∧ selfSubject.isPrefixOf (subjOf m).data = false ∧
      (l.filter fun x => subjOf x == subjOf m).head? = some m := by
  induction l with
  | nil => intro seen m h; simp [dedupLoop] at h
  | cons x rest ih =>
      intro seen m h
      simp only [dedupLoop] at h
      cases hpx : selfSubject.isPrefixOf (subjOf x).data with
      | true =>
          rw [hpx] at h
          simp only [if_true] at h
          obtain ⟨h1, h2, h3⟩ := ih seen m h
          refine ⟨h1, h2, ?_⟩
          rw [List.filter_cons]
          cases hxm : (subjOf x == subjOf m) with
          | false => simpa [hxm] using h3
          | true =>
              have hx : subjOf x = subjOf m := by
                exact beq_iff_eq.mp hxm
              rw [hx, h2] at hpx
              cases hpx
      | false =>
          rw [hpx] at h
          simp only [Bool.false_eq_true, if_false] at h
          by_cases hsx : subjOf x ∈ seen
          · simp only [if_pos hsx] at h
            obtain ⟨h1, h2, h3⟩ := ih seen m h
            refine ⟨h1, h2, ?_⟩
            rw [List.filter_cons]
            cases hxm : (subjOf x == subjOf m) with
            | false => simpa [hxm] using h3
            | true =>
                have hx : subjOf x = subjOf m := beq_iff_eq.mp hxm
                rw [hx] at hsx
                exact absurd hsx h1
          · simp only [if_neg hsx] at h
            rcases List.mem_cons.mp h with rfl | h
            · refine ⟨hsx, hpx, ?_⟩
              rw [List.filter_cons]
              simp
            · obtain ⟨h1, h2, h3⟩ := ih (subjOf x :: seen) m h
              have hne : subjOf m ≠ subjOf x := by
                intro hc
                exact h1 (by rw [hc]; exact List.mem_cons_self _ _)
              refine ⟨fun hc => h1 (List.mem_cons_of_mem _ hc), h2, ?_⟩
              rw [List.filter_cons]
              cases hxm : (subjOf x == subjOf m) with
              | false => simpa [hxm] using h3
              | true => exact absurd (beq_iff_eq.mp hxm).symm hne

/-- The survivors of the de-duplication loop have pairwise distinct
subjects. -/
theorem dedup_pairwise {α : Type} (subjOf : α → String) (l : List α) :
    ∀ seen, List.Pairwise (fun a b => subjOf a ≠ subjOf b) (dedupLoop subjOf l seen) := by
  induction l with
  | nil => intro seen; simp [dedupLoop]
  | cons x rest ih =>
      intro seen
      simp only [dedupLoop]
      cases hpx : selfSubject.isPrefixOf (subjOf x).data with
      | true => simpa using ih seen
      | false =>
          simp only [Bool.false_eq_true, if_false]
          by_cases hsx : subjOf x ∈ seen
          · simpa [hsx] using ih seen
          · simp only [if_neg hsx]
            refine List.Pairwise.cons ?_ (ih (subjOf x :: seen))
            intro b hb
            have h1 := (dedup_mem subjOf rest (subjOf x :: seen) b hb).1
            intro hc
            exact h1 (by rw [← hc]; exact List.mem_cons_self _ _)

/-- C1. In every run, the surviving messages have pairwise distinct
subjects (at most one survivor per distinct subject string), no survivor
carries the self-digest subject prefix (such messages are excluded
entirely), and every survivor is the first message of the fetched
sequence bearing its subject (first occurrence wins). -/
theorem claim_C1_dedup_invariant (ms : List Meta) :
    List.Pairwise (fun a b => a.subject ≠ b.subject) (filterMetas ms) ∧
    ∀ m ∈ filterMetas ms,
      selfSubject.isPrefixOf m.subject.data = false ∧
      (ms.filter fun x => x.subject == m.subject).head? = some m := by
  constructor
  · exact dedup_pairwise (fun m => m.subject) ms []
  · intro m hm
    have hm2 : m ∈ dedupLoop (fun m : Meta => m.subject) ms [] := hm
    obtain ⟨_, h2, h3⟩ := dedup_mem (fun m : Meta => m.subject) ms [] m hm2
    exact ⟨h2, h3⟩

/-- First message of the C1 witness run. -/
def mC1a : Meta := ⟨"a", "hello", "x@y.z", "", false, "", [], ""⟩

/-- Second message of the C1 witness run: an exact-subject duplicate of
the first with a different identifier. -/
def mC1b : Meta := ⟨"b", "hello", "u@v.w", "", false, "", [], ""⟩

/-- Third message of the C1 witness run: a self-digest subject. -/
def mC1c : Meta := ⟨"c", "📬 Gmail Daily Digest — 01/01/2026", "me@me.me", "", false, "", [], ""⟩

/-- The C1 witness run. -/
def msC1 : List Meta := [mC1a, mC1b, mC1c]

/-- Witness for C1: the first hello message survives the concrete run and
is the first filter hit for its subject. -/
theorem claim_C1_witness :
    selfSubject.isPrefixOf mC1a.subject.data = false ∧
    (msC1.filter fun x => x.subject == mC1a.subject).head? = some mC1a :=
  (claim_C1_dedup_invariant msC1).2 mC1a (by decide)

-- ── Claim C4: reference numbers are exactly 1..N ─────────────────────────

/-- Total number of messages in a group structure. -/
def totalMsgs (gs : List (String × List Meta)) : Nat :=
  (gs.map fun g => g.2.length).sum

/-- The reference numbers build_digest assigns, read off section by
section in group-then-member order. -/
def assignedRefs (gs : List (String × List Meta)) : List Nat :=
  ((build_digest gs).1.map fun sec => sec.2.map Prod.fst).flatten

/-- The inner digest loop over one group assigns the consecutive
reference numbers starting at its entry counter and leaves the counter
advanced by the group size. -/
theorem digestItems_refs (items : List Meta) :
    ∀ k, (digestItems k items).cards.map Prod.fst = List.range' k items.length ∧
      (digestItems k items).nextRef = k + items.length := by
  induction items with
  | nil => intro k; simp [digestItems]
  | cons m rest ih =>
      intro k
      obtain ⟨h1, h2⟩ := ih (k + 1)
      refine ⟨?_, ?_⟩
      · simp [digestItems, h1, List.range'_succ]
      · simp [digestItems, h2]
        omega

/-- The outer digest loop assigns the consecutive reference numbers
starting at its entry counter, across all groups in order, and leaves the
counter advanced by the total message count. -/
theorem digestGroups_refs (gs : List (String × List Meta)) :
    ∀ k, ((digestGroups k gs).sections.map fun sec => sec.2.map Prod.fst).flatten =
        List.range' k (totalMsgs gs) ∧
      (digestGroups k gs).nextRef = k + totalMsgs gs := by
  induction gs with
  | nil => intro k; simp [digestGroups, totalMsgs]
  | cons g rest ih =>
      intro k
      obtain ⟨cat, items⟩ := g
      have htot : totalMsgs ((cat, items) :: rest) = items.length + totalMsgs rest := by
        simp [totalMsgs]
      cases he : items.isEmpty with
      | true =>
          have hlen : items.length = 0 := by
            rw [List.isEmpty_iff] at he
            simp [he]
          obtain ⟨h1, h2⟩ := ih k
          refine ⟨?_, ?_⟩
          · simp only [digestGroups, he, if_true]
            rw [h1, htot, hlen]
            simp
          · simp only [digestGroups, he, if_true]
            rw [h2, htot, hlen]
            omega
      | false =>
          obtain ⟨hc, hn⟩ := digestItems_refs items k
          obtain ⟨h1, h2⟩ := ih (k + items.length)
          have happ := List.range'_append k items.length (totalMsgs rest) 1
          simp only [one_mul] at happ
          refine ⟨?_, ?_⟩
          · simp only [digestGroups, he, Bool.false_eq_true, if_false, List.map_cons,
              List.flatten_cons, hc, hn, h1]
            rw [happ, htot, Nat.add_comm]
          · simp only [digestGroups, he, Bool.false_eq_true, if_false, hn, h2]
            rw [htot]
            omega

/-- C4. For every grouped input, the digest assembler assigns reference
numbers that are exactly the consecutive integers 1..N in group-then-
member order, where N is the total number of surviving messages: no gaps
and no repeats. -/
theorem claim_C4_reference_numbers (gs : List (String × List Meta)) :
    assignedRefs gs = List.range' 1 (totalMsgs gs) := by
  have h := (digestGroups_refs gs 1).1
  simpa [assignedRefs, build_digest] using h

/-- Concrete messages for the C4 witness. -/
def mC4a : Meta := ⟨"4a", "alpha", "", "", false, "", [], ""⟩

/-- Second concrete message for the C4 witness. -/
def mC4b : Meta := ⟨"4b", "beta", "", "", false, "", [], ""⟩

/-- Third concrete message for the C4 witness. -/
def mC4c : Meta := ⟨"4c", "gamma", "", "", false, "", [], ""⟩

/-- Concrete group structure for the C4 witness, with an empty group in
the middle. -/
def gsC4 : List (String × List Meta) := [("A", [mC4a, mC4b]), ("B", []), ("C", [mC4c])]

/-- Witness for C4: on the concrete groups the assigned references are
exactly 1, 2, 3. -/
theorem claim_C4_witness : assignedRefs gsC4 = [1, 2, 3] := by
  have h := claim_C4_reference_numbers gsC4
  rw [h]
  decide

-- ── Claim C6: group iteration order ──────────────────────────────────────

/-- Message classified Family for the C6 counterexample. -/
def mC6fam : Meta := ⟨"6f", "lucas", "", "", false, "", [], ""⟩

/-- Message classified School for the C6 counterexample. -/
def mC6sch : Meta := ⟨"6s", "teacher", "", "", false, "", [], ""⟩

/-- Counterexample to C6 as stated. The section order of the digest is
not a fixed category display order: it is the insertion order of the
group structure, which follows the order in which categories first occur
in the classified message sequence, so permuting the input messages
permutes the rendered sections. -/
theorem claim_C6_counterexample :
    (build_digest (buildGroups [mC6fam, mC6sch])).1.map Prod.fst = ["Family", "School"] ∧
    (build_digest (buildGroups [mC6sch, mC6fam])).1.map Prod.fst = ["School", "Family"] ∧
    (build_digest (buildGroups [mC6fam, mC6sch])).1.map Prod.fst ≠
      (build_digest (buildGroups [mC6sch, mC6fam])).1.map Prod.fst := by
  refine ⟨by decide, by decide, by decide⟩

/-- The outer digest loop renders sections exactly for the non-empty
groups, in the order of the group structure. -/
theorem digestGroups_cats (gs : List (String × List Meta)) :
    ∀ k, (digestGroups k gs).sections.map Prod.fst =
      (gs.filter fun g => !g.2.isEmpty).map Prod.fst := by
  induction gs with
  | nil => intro k; simp [digestGroups]
  | cons g rest ih =>
      intro k
      obtain ⟨cat, items⟩ := g
      by_cases he : items.isEmpty
      · simp [digestGroups, he, List.filter_cons, ih k]
      · simp [digestGroups, he, List.filter_cons, ih ((digestItems k items).nextRef)]

/-- C6 as amended: for every grouped input, build_digest iterates the
groups in the order of the grouped structure itself — the insertion order
in which categories first occurred among the classified messages, not a
fixed display order — skipping empty groups, when rendering sections and
assigning reference numbers. -/
theorem claim_C6_iteration_order (gs : List (String × List Meta)) :
    (build_digest gs).1.map Prod.fst = (gs.filter fun g => !g.2.isEmpty).map Prod.fst := by
  simpa [build_digest] using digestGroups_cats gs 1

/-- Concrete group structure for the C6 witness, with an empty group. -/
def gsC6 : List (String × List Meta) := [("School", [mC6sch]), ("Empty", []), ("Family", [mC6fam])]

/-- Witness for the amended C6: the sections follow the group structure
order with the empty group skipped. -/
theorem claim_C6_witness : (build_digest gsC6).1.map Prod.fst = ["School", "Family"] := by
  have h := claim_C6_iteration_order gsC6
  rw [h]
  decide

-- ── Claim C9: summarisation failure aborts the run ───────────────────────

/-- When any survivor of the de-duplication filter has non-empty body
text and the generation capability fails on its truncated body, the main
loop ends in an error. -/
theorem mainLoop_err (gen : List Char → Except String (List Char)) (msgs : List RawMsg) :
    ∀ seen,
      (∃ r ∈ dedupLoop (fun r : RawMsg => r.meta.subject) msgs seen,
        computedBody r ≠ [] ∧ isErr (gen (pyShorten 1200 (computedBody r))) = true) →
      isErr (mainLoop gen msgs seen) = true := by
  induction msgs with
  | nil => intro seen h; simp [dedupLoop] at h
  | cons x rest ih =>
      intro seen h
      simp only [dedupLoop] at h
      simp only [mainLoop]
      cases hpx : selfSubject.isPrefixOf x.meta.subject.data with
      | true =>
          rw [hpx] at h
          simp only [if_true] at h
          simp only [hpx, if_true]
          exact ih seen h
      | false =>
          rw [hpx] at h
          simp only [Bool.false_eq_true, if_false] at h
          simp only [hpx, Bool.false_eq_true, if_false]
          by_cases hsx : x.meta.subject ∈ seen
          · simp only [if_pos hsx] at h
            simp only [if_pos hsx]
            exact ih seen h
          · simp only [if_neg hsx] at h
            simp only [if_neg hsx]
            rcases h with ⟨r, hr, hb, he⟩
            rcases List.mem_cons.mp hr with rfl | hr
            · have hbe : (computedBody r).isEmpty = false := by
                cases hq : computedBody r with
                | nil => exact absurd hq hb
                | cons c cs => simp
              cases hg : gen (pyShorten 1200 (computedBody r)) with
              | error e => simp [summariseE, hbe, hg, isErr]
              | ok g => rw [hg] at he; simp [isErr] at he
            · cases hsum : summariseE gen x.meta.subject.data (computedBody x) with
              | error e => simp [isErr]
              | ok s =>
                  have htail := ih (x.meta.subject :: seen) ⟨r, hr, hb, he⟩
                  cases hml : mainLoop gen rest (x.meta.subject :: seen) with
                  | error e => simp [isErr]
                  | ok ms => rw [hml] at htail; simp [isErr] at htail

/-- C9. A failure of the external text-generation call is never recovered
locally. First, the summariser propagates the failure unchanged whenever
it is invoked on non-empty body text — it never substitutes blank or
missing content. Second, whenever the call fails for any surviving
message of the run, the whole run aborts: no digest is produced and the
top level prints the fatal-error diagnostic. -/
theorem claim_C9_failfast :
    (∀ (subject text : List Char) (e : String), text.isEmpty = false →
        summariseE (fun _ => Except.error e) subject text = Except.error e) ∧
    (∀ (gen : List Char → Except String (List Char)) (msgs : List RawMsg),
      (∃ r ∈ dedupLoop (fun r : RawMsg => r.meta.subject) msgs [],
        computedBody r ≠ [] ∧ isErr (gen (pyShorten 1200 (computedBody r))) = true) →
      isErr (mainE gen msgs) = true ∧ (runTop gen msgs).1 = none ∧
        ∃ e, (runTop gen msgs).2 = "❌ Fatal error: " ++ e) := by
  constructor
  · intro subject text e htext
    simp [summariseE, htext]
  · intro gen msgs h
    have hml := mainLoop_err gen msgs [] h
    cases hm : mainLoop gen msgs [] with
    | ok ms => rw [hm] at hml; simp [isErr] at hml
    | error e =>
        refine ⟨?_, ?_, e, ?_⟩
        · simp [mainE, hm, isErr]
        · simp [runTop, mainE, hm]
        · simp [runTop, mainE, hm]

/-- Concrete fetched message for the C9 witness. -/
def rC9 : RawMsg := ⟨⟨"w9", "Hi there", "a@b.example", "", false, "", [], ""⟩, "Some body text"⟩

/-- Witness for C9 at a concrete run whose generation capability always
fails: the summariser propagates the error and the run yields no email,
only the fatal diagnostic. -/
theorem claim_C9_witness :
    summariseE (fun _ => Except.error ("quota")) ("subject".data) ("body".data) =
        Except.error ("quota") ∧
    isErr (mainE (fun _ => Except.error ("quota")) [rC9]) = true ∧
    (runTop (fun _ => Except.error ("quota")) [rC9]).1 = none ∧
    ∃ e, (runTop (fun _ => Except.error ("quota")) [rC9]).2 = "❌ Fatal error: " ++ e := by
  refine ⟨claim_C9_failfast.1 _ _ _ (by decide), ?_⟩
  exact claim_C9_failfast.2 (fun _ => Except.error ("quota")) [rC9]
    ⟨rC9, by decide, by decide, by decide⟩
